import Mathlib

/-!
# Verification of the `simple-redis` RESP codec

Shallow embedding of the RESP (Redis serialization protocol) codec of the
`02-simple-redis` repository, together with theorems settling the claims about
its specification.

Sources embedded:
* `src/resp/decode.rs` — the decoder and the length prober
  (`RespFrame::decode` / `expected_length`, `calc_total_length`,
  `parse_length`, `extract_simple_frame_data`, `extract_fixed_data`,
  `find_crlf`, and the per-type `RespDecode` impls);
* `src/resp/encode.rs` — the `RespEncode` impls;
* `src/resp/array.rs` — the `RespArray` encoder (the one with the
  empty-array special case, which is the encoder the spec describes);
* `src/resp/double.rs` — `ApproximateFloat` equality and hashing.

Conventions of the embedding:
* Bytes are `Nat` (values < 256); buffers are `List Nat`.  Rust `&buf[i..]`
  slicing, `Buf::advance`, and `BytesMut::split_to` become `List.drop` /
  `List.take`, with an explicit out-of-bounds check where Rust would panic.
* Rust's mutable `BytesMut` argument becomes state passing: a decode
  function takes the buffer and returns `(result, buffer-afterwards)`.
  On an error return the buffer returned is whatever the Rust code would
  have left in the `BytesMut` at that point.
* Rust's error strings (the `format!` payloads of `InvalidFrameType` /
  `InvalidFrame`) carry no semantic weight and are elided from the error
  type.
* The mutually recursive decode/probe routines are embedded with an explicit
  fuel parameter bounding recursion depth (Rust's recursion is unbounded; the
  repository imposes no nesting limit).  Every theorem below evaluates the
  code on a concrete buffer with ample fuel, and none of the evaluated runs
  exhausts it (a run that did would produce the distinguished `fuelOut`
  error, which no theorem's stated result contains).
-/

namespace SimpleRedis

/-- A byte (value < 256 in every buffer we construct). -/
abbrev Byte := Nat

/-- A byte buffer, modelling Rust's `BytesMut` / `&[u8]` / `Vec<u8>`. -/
abbrev Buf := List Byte

/-- Embeds `CRLF_LEN` from `decode.rs`. -/
def crlfLen : Nat := 2

/-- The two-byte CRLF terminator `\r\n`. -/
def crlf : Buf := [13, 10]

/-- Modelled from the spec: the repository uses a `RespError` type that is
referenced from `decode.rs` and `array.rs` but whose defining module is not
among the source files.  Constructors follow the spec's §7 error taxonomy and
the variants used by the source (`NotComplete`, `InvalidFrameType`,
`InvalidFrame`, plus the `From<ParseIntError>` / `From<ParseFloatError>`
conversions invoked by `s.parse()?`).  Two extra constructors record events
outside Rust's `Result` channel: `panicOutOfBounds` marks an out-of-bounds
slice index (a Rust panic, which no `match` arm of the source can catch),
and `fuelOut` is an artifact of the fuel-based embedding of
unbounded recursion, never reached in any run evaluated below. -/
inductive RespError where
  | notComplete
  | invalidFrameType
  | invalidFrame
  | parseIntError
  | parseFloatError
  | panicOutOfBounds
  | fuelOut
deriving DecidableEq, Repr

/-- The RESP frame type (`enum RespFrame` of `resp/mod.rs`).  Strings and raw
byte payloads are both byte lists (`String::from_utf8_lossy` is modelled as
the identity on bytes; every payload appearing in a theorem below is ASCII).
The `f64` payload of `Double` is kept as its decimal text, checked against the
float-literal grammar at decode time; no claim inspects a double's numeric
value (the `ApproximateFloat` claims are settled over `ℚ` separately).  The
`BTreeMap<String, RespFrame>` of `RespMap` is an association list kept sorted
by key. -/
inductive RespFrame where
  | simpleString (s : Buf)
  | simpleError (s : Buf)
  | integer (n : Int)
  | bulkString (data : Buf)
  | array (elems : List RespFrame)
  | null
  | nullArray
  | nullBulkString
  | boolean (b : Bool)
  | double (text : Buf)
  | map (entries : List (Buf × RespFrame))
  | set (elems : List RespFrame)

/-! ## Small helpers shared by the decoder -/

/-- Models Rust `&data[i..]` on a slice: returns the suffix, or the
`panicOutOfBounds` error when the start index exceeds the slice length
(Rust: a "range start index out of range" panic). -/
def rustSliceFrom (data : Buf) (i : Nat) : Except RespError Buf :=
  if i ≤ data.length then .ok (data.drop i) else .error .panicOutOfBounds

/-- Decimal digit value of a byte, if it is an ASCII digit. -/
def digitVal (b : Byte) : Option Nat :=
  if 48 ≤ b ∧ b ≤ 57 then some (b - 48) else none

/-- Accumulating decimal parse of a nonempty all-digit byte string. -/
def parseDigitsGo (acc : Nat) : Buf → Option Nat
  | [] => some acc
  | b :: rest =>
    match digitVal b with
    | some d => parseDigitsGo (acc * 10 + d) rest
    | none => none

/-- Returns `some n` iff the byte string is one or more ASCII digits. -/
def parseDigits : Buf → Option Nat
  | [] => none
  | s => parseDigitsGo 0 s

/-- Rust `str::parse::<usize>()`: optional leading `+`, then one or more
digits, value below `2^64`; anything else (in particular a leading `-`) is a
`ParseIntError`. -/
def parseUsize (s : Buf) : Except RespError Nat :=
  let t := match s with
    | 43 :: rest => rest
    | _ => s
  match parseDigits t with
  | some n => if n < 2 ^ 64 then .ok n else .error .parseIntError
  | none => .error .parseIntError

/-- Rust `str::parse::<i64>()`: optional sign, digits, 64-bit signed range. -/
def parseI64 (s : Buf) : Except RespError Int :=
  match s with
  | 45 :: rest =>
    match parseDigits rest with
    | some n => if n ≤ 2 ^ 63 then .ok (-(n : Int)) else .error .parseIntError
    | none => .error .parseIntError
  | 43 :: rest =>
    match parseDigits rest with
    | some n => if n < 2 ^ 63 then .ok (n : Int) else .error .parseIntError
    | none => .error .parseIntError
  | _ =>
    match parseDigits s with
    | some n => if n < 2 ^ 63 then .ok (n : Int) else .error .parseIntError
    | none => .error .parseIntError

/-- Rust `f64` literal grammar accepted by `str::parse::<f64>()`, restricted
to the numeric forms (optional sign; digits with an optional fractional part,
or a leading point; optional exponent).  The textual `inf` / `NaN` forms are
not modelled; no claim involves them. -/
def isF64Text (s : Buf) : Bool :=
  let t := match s with
    | 43 :: rest => rest
    | 45 :: rest => rest
    | _ => s
  let isDigit : Byte → Bool := fun b => 48 ≤ b && b ≤ 57
  let mantissa := t.takeWhile fun b => isDigit b || b = 46
  let expPart := t.drop mantissa.length
  let mantissaOk :=
    !mantissa.isEmpty &&
    (mantissa.filter (· = 46)).length ≤ 1 &&
    (mantissa.filter isDigit).length ≥ 1
  let expOk :=
    match expPart with
    | [] => true
    | e :: rest =>
      (e = 101 || e = 69) &&
      (let r := match rest with
        | 43 :: r => r
        | 45 :: r => r
        | r => r
       !r.isEmpty && r.all isDigit)
  mantissaOk && expOk

/-- Strict lexicographic byte order on buffers, the order of Rust `String`
keys in a `BTreeMap` (UTF-8 byte order). -/
def bufLt : Buf → Buf → Bool
  | [], [] => false
  | [], _ :: _ => true
  | _ :: _, [] => false
  | a :: as_, b :: bs => if a < b then true else if b < a then false else bufLt as_ bs

/-- Embeds `BTreeMap::insert`: insert or replace, keeping entries sorted by key. -/
def btreeInsert (k : Buf) (v : RespFrame) :
    List (Buf × RespFrame) → List (Buf × RespFrame)
  | [] => [(k, v)]
  | (k', v') :: rest =>
    if bufLt k k' then (k, v) :: (k', v') :: rest
    else if k = k' then (k, v) :: rest
    else (k', v') :: btreeInsert k v rest

/-! ## `find_crlf`, `extract_*`, `parse_length` (decode.rs lines 105–159) -/

/-- Loop body of `find_crlf`: scan indices `i` with `1 ≤ i < buf.len() - 1`
for the `nth` occurrence of `\r\n`.  The remaining iteration count
`(buf.len() - 1) - i` is the structural recursion argument `steps`. -/
def findCrlfGo (buf : Buf) (nth : Nat) : Nat → Nat → Nat → Option Nat
  | 0, _, _ => none
  | steps + 1, i, count =>
    if buf.getD i 0 = 13 ∧ buf.getD (i + 1) 0 = 10 then
      if count + 1 = nth then some i
      else findCrlfGo buf nth steps (i + 1) (count + 1)
    else findCrlfGo buf nth steps (i + 1) count

/-- Embeds `find_crlf` from decode.rs: index of the `nth` CRLF, scanning `i` from 1
to `buf.len() - 2` inclusive (`for i in 1..buf.len() - 1`; every caller
guarantees `buf.len() ≥ 3`, so the `usize` subtraction cannot underflow). -/
def findCrlf (buf : Buf) (nth : Nat) : Option Nat :=
  findCrlfGo buf nth (buf.length - 2) 1 0

/-- Embeds `extract_fixed_data`: demand that the buffer starts with the fixed token
`expect`, advancing past it on success.  Returns the buffer as Rust leaves
the `BytesMut` (advanced on success, untouched on error).  The `expect_type`
string argument only feeds the error message and is elided. -/
def extractFixedData (buf : Buf) (expect : Buf) : Except RespError Unit × Buf :=
  if buf.length < expect.length then (.error .notComplete, buf)
  else if expect.isPrefixOf buf then (.ok (), buf.drop expect.length)
  else (.error .invalidFrameType, buf)

/-- Embeds `extract_simple_frame_data`: check the one-byte type marker and find the
first CRLF; never consumes. -/
def extractSimpleFrameData (buf : Buf) (pfx : Buf) : Except RespError Nat :=
  if buf.length < 3 then .error .notComplete
  else if pfx.isPrefixOf buf then
    match findCrlf buf 1 with
    | some e => .ok e
    | none => .error .notComplete
  else .error .invalidFrameType

/-- Embeds `parse_length`: CRLF position of the length line together with the decimal
length field parsed as `usize`. -/
def parseLength (buf : Buf) (pfx : Buf) : Except RespError (Nat × Nat) :=
  match extractSimpleFrameData buf pfx with
  | .error e => .error e
  | .ok e =>
    match parseUsize ((buf.take e).drop pfx.length) with
    | .error err => .error err
    | .ok n => .ok (e, n)

/-! ## Non-recursive `expected_length` impls (decode.rs) -/

/-- Embeds `SimpleString::expected_length` (prefix `+`). -/
def simpleStringExpectedLength (buf : Buf) : Except RespError Nat :=
  match extractSimpleFrameData buf [43] with
  | .error e => .error e
  | .ok e => .ok (e + crlfLen)

/-- Embeds `SimpleError::expected_length` (prefix `-`). -/
def simpleErrorExpectedLength (buf : Buf) : Except RespError Nat :=
  match extractSimpleFrameData buf [45] with
  | .error e => .error e
  | .ok e => .ok (e + crlfLen)

/-- Embeds `i64::expected_length` (prefix `:`). -/
def i64ExpectedLength (buf : Buf) : Except RespError Nat :=
  match extractSimpleFrameData buf [58] with
  | .error e => .error e
  | .ok e => .ok (e + crlfLen)

/-- Embeds `f64::expected_length` (prefix `,`). -/
def f64ExpectedLength (buf : Buf) : Except RespError Nat :=
  match extractSimpleFrameData buf [44] with
  | .error e => .error e
  | .ok e => .ok (e + crlfLen)

/-- Embeds `bool::expected_length`: fixed 4 when the buffer starts with `#t\r\n` or
`#f\r\n`, otherwise the fatal `InvalidFrame` (also on short buffers). -/
def boolExpectedLength (buf : Buf) : Except RespError Nat :=
  if [35, 116, 13, 10].isPrefixOf buf ∨ [35, 102, 13, 10].isPrefixOf buf then .ok 4
  else .error .invalidFrame

/-- Embeds `BulkString::expected_length`: length line plus declared payload plus its
CRLF. -/
def bulkStringExpectedLength (buf : Buf) : Except RespError Nat :=
  match parseLength buf [36] with
  | .error e => .error e
  | .ok (e, len) => .ok (e + crlfLen + len + crlfLen)

/-- Embeds `RespNull::expected_length`: fixed 3.  Defined in decode.rs but never
reachable from `RespFrame::expected_length`, whose dispatch has no `_` arm. -/
def nullExpectedLength (_buf : Buf) : Except RespError Nat := .ok 3

/-- Embeds `RespNullArray::expected_length`: fixed 5.  Defined in decode.rs but never
reachable from `RespFrame::expected_length`, which routes `*` to
`RespArray::expected_length`. -/
def nullArrayExpectedLength (_buf : Buf) : Except RespError Nat := .ok 5

/-! ## The mutually recursive length prober (decode.rs lines 88–102, 161–188)

Each function consumes one unit of fuel on entry; the wrappers at the end
supply fuel far exceeding any possible recursion depth for their input. -/

mutual

/-- Embeds `RespFrame::expected_length`: dispatch on the leading type byte.  Note
the catch-all: an unknown (or absent) leading byte yields `NotComplete`, not
`InvalidFrameType`. -/
def frameExpectedLength (fuel : Nat) (buf : Buf) : Except RespError Nat :=
  match fuel with
  | 0 => .error .fuelOut
  | fuel + 1 =>
    match buf.head? with
    | some 43 => simpleStringExpectedLength buf
    | some 45 => simpleErrorExpectedLength buf
    | some 58 => i64ExpectedLength buf
    | some 35 => boolExpectedLength buf
    | some 44 => f64ExpectedLength buf
    | some 36 => bulkStringExpectedLength buf
    | some 42 => arrayExpectedLength fuel buf
    | some 37 => mapExpectedLength fuel buf
    | some 126 => setExpectedLength fuel buf
    | _ => .error .notComplete

/-- Embeds `RespArray::expected_length` (decode.rs lines 336–339). -/
def arrayExpectedLength (fuel : Nat) (buf : Buf) : Except RespError Nat :=
  match fuel with
  | 0 => .error .fuelOut
  | fuel + 1 =>
    match parseLength buf [42] with
    | .error e => .error e
    | .ok (e, len) => calcTotalLength fuel buf e len [42]

/-- Embeds `RespMap::expected_length` (decode.rs lines 375–378). -/
def mapExpectedLength (fuel : Nat) (buf : Buf) : Except RespError Nat :=
  match fuel with
  | 0 => .error .fuelOut
  | fuel + 1 =>
    match parseLength buf [37] with
    | .error e => .error e
    | .ok (e, len) => calcTotalLength fuel buf e len [37]

/-- Embeds `RespSet::expected_length` (decode.rs lines 403–406). -/
def setExpectedLength (fuel : Nat) (buf : Buf) : Except RespError Nat :=
  match fuel with
  | 0 => .error .fuelOut
  | fuel + 1 =>
    match parseLength buf [126] with
    | .error e => .error e
    | .ok (e, len) => calcTotalLength fuel buf e len [126]

/-- Embeds `calc_total_length` (decode.rs lines 161–188).  For `*`/`~` it probes all
`len` children; for `%` it probes exactly one key-value pair regardless of
`len` (the commented-out cursor advance of line 181 is dead code and the pair
loop is absent in the source); for any other prefix it returns
`len + CRLF_LEN`. -/
def calcTotalLength (fuel : Nat) (buf : Buf) (e : Nat) (len : Nat) (pfx : Buf) :
    Except RespError Nat :=
  match fuel with
  | 0 => .error .fuelOut
  | fuel + 1 =>
    let total := e + crlfLen
    let data := buf.drop total
    match pfx with
    | [42] | [126] => calcChildrenLength fuel data len total
    | [37] =>
      match simpleStringExpectedLength data with
      | .error err => .error err
      | .ok klen =>
        match rustSliceFrom data klen with
        | .error err => .error err
        | .ok data' =>
          match frameExpectedLength fuel data' with
          | .error err => .error err
          | .ok vlen => .ok (total + klen + vlen)
    | _ => .ok (len + crlfLen)

/-- The `for _ in 0..len` loop of `calc_total_length` for `*`/`~`: probe each
child's length and step the cursor past it; the step `data = &data[len..]`
panics when the probed child length exceeds the bytes present. -/
def calcChildrenLength (fuel : Nat) (data : Buf) (k : Nat) (total : Nat) :
    Except RespError Nat :=
  match fuel with
  | 0 => .error .fuelOut
  | fuel + 1 =>
    match k with
    | 0 => .ok total
    | k + 1 =>
      match frameExpectedLength fuel data with
      | .error err => .error err
      | .ok clen =>
        match rustSliceFrom data clen with
        | .error err => .error err
        | .ok data' => calcChildrenLength fuel data' k (total + clen)

end

/-! ## Non-recursive `decode` impls (decode.rs)

Each returns `(result, buffer-afterwards)`, mirroring the mutable `BytesMut`
argument of the Rust code. -/

/-- Embeds `SimpleString::decode`: find the line, `split_to(end + CRLF_LEN)`, keep
`data[1..end]` as the payload. -/
def simpleStringDecode (buf : Buf) : Except RespError Buf × Buf :=
  match extractSimpleFrameData buf [43] with
  | .error e => (.error e, buf)
  | .ok e =>
    let data := buf.take (e + crlfLen)
    ((.ok ((data.take e).drop 1)), buf.drop (e + crlfLen))

/-- Embeds `SimpleError::decode`. -/
def simpleErrorDecode (buf : Buf) : Except RespError Buf × Buf :=
  match extractSimpleFrameData buf [45] with
  | .error e => (.error e, buf)
  | .ok e =>
    let data := buf.take (e + crlfLen)
    ((.ok ((data.take e).drop 1)), buf.drop (e + crlfLen))

/-- Embeds `i64::decode`: consume the line and parse `data[1..end]` as `i64`. -/
def i64Decode (buf : Buf) : Except RespError Int × Buf :=
  match extractSimpleFrameData buf [58] with
  | .error e => (.error e, buf)
  | .ok e =>
    let data := buf.take (e + crlfLen)
    let rest := buf.drop (e + crlfLen)
    match parseI64 ((data.take e).drop 1) with
    | .error err => (.error err, rest)
    | .ok n => (.ok n, rest)

/-- Embeds `bool::decode`: try the fixed token `#t\r\n`; on `NotComplete` stop; on
any other error try `#f\r\n` on the (unchanged) buffer. -/
def boolDecode (buf : Buf) : Except RespError Bool × Buf :=
  match extractFixedData buf [35, 116, 13, 10] with
  | (.ok _, b) => (.ok true, b)
  | (.error .notComplete, b) => (.error .notComplete, b)
  | (.error _, b) =>
    match extractFixedData b [35, 102, 13, 10] with
    | (.ok _, b') => (.ok false, b')
    | (.error e, b') => (.error e, b')

/-- Embeds `f64::decode`: consume the line, parse the payload as a float literal
(the numeric value is kept as text, see `RespFrame.double`). -/
def f64Decode (buf : Buf) : Except RespError Buf × Buf :=
  match extractSimpleFrameData buf [44] with
  | .error e => (.error e, buf)
  | .ok e =>
    let data := buf.take (e + crlfLen)
    let rest := buf.drop (e + crlfLen)
    let payload := (data.take e).drop 1
    if isF64Text payload then (.ok payload, rest)
    else (.error .parseFloatError, rest)

/-- Embeds `BulkString::decode`: parse the length line, demand `len + CRLF_LEN`
payload bytes beyond it, advance past the line, split off the payload. -/
def bulkStringDecode (buf : Buf) : Except RespError Buf × Buf :=
  match parseLength buf [36] with
  | .error e => (.error e, buf)
  | .ok (e, len) =>
    let remained := buf.drop (e + crlfLen)
    if remained.length < len + crlfLen then (.error .notComplete, buf)
    else
      let buf' := buf.drop (e + crlfLen)
      let data := buf'.take (len + crlfLen)
      (.ok (data.take len), buf'.drop (len + crlfLen))

/-- Embeds `RespNull::decode`: the fixed token `_\r\n`.  Present in decode.rs but
never reached from `RespFrame::decode`, whose dispatch has no `_` arm. -/
def nullDecode (buf : Buf) : Except RespError Unit × Buf :=
  match extractFixedData buf [95, 13, 10] with
  | (.ok _, b) => (.ok (), b)
  | (.error e, b) => (.error e, b)

/-- Embeds `RespNullArray::decode`: the fixed token `*-1\r\n`. -/
def nullArrayDecode (buf : Buf) : Except RespError Unit × Buf :=
  match extractFixedData buf [42, 45, 49, 13, 10] with
  | (.ok _, b) => (.ok (), b)
  | (.error e, b) => (.error e, b)

/-! ## The mutually recursive decoder (decode.rs lines 27–87, 315–407) -/

mutual

/-- Embeds `RespFrame::decode`: peek the first byte and dispatch.  The `$` branch
("try null bulk string first") calls `BulkString::decode` in *both* arms —
the null-bulk-string decoder is never invoked; the `*` branch tries
`RespNullArray::decode` first and falls through to `RespArray::decode` on any
error other than `NotComplete`.  There is no arm for `_` (Null): such buffers
hit the catch-all and fail with `InvalidFrameType`. -/
def frameDecode (fuel : Nat) (buf : Buf) : Except RespError RespFrame × Buf :=
  match fuel with
  | 0 => (.error .fuelOut, buf)
  | fuel + 1 =>
    match buf.head? with
    | some 43 =>
      match simpleStringDecode buf with
      | (.ok s, b) => (.ok (.simpleString s), b)
      | (.error e, b) => (.error e, b)
    | some 45 =>
      match simpleErrorDecode buf with
      | (.ok s, b) => (.ok (.simpleError s), b)
      | (.error e, b) => (.error e, b)
    | some 58 =>
      match i64Decode buf with
      | (.ok n, b) => (.ok (.integer n), b)
      | (.error e, b) => (.error e, b)
    | some 35 =>
      match boolDecode buf with
      | (.ok v, b) => (.ok (.boolean v), b)
      | (.error e, b) => (.error e, b)
    | some 44 =>
      match f64Decode buf with
      | (.ok t, b) => (.ok (.double t), b)
      | (.error e, b) => (.error e, b)
    | some 36 =>
      match bulkStringDecode buf with
      | (.ok s, b) => (.ok (.bulkString s), b)
      | (.error .notComplete, b) => (.error .notComplete, b)
      | (.error _, b) =>
        match bulkStringDecode b with
        | (.ok s, b') => (.ok (.bulkString s), b')
        | (.error e, b') => (.error e, b')
    | some 42 =>
      match nullArrayDecode buf with
      | (.ok _, b) => (.ok .nullArray, b)
      | (.error .notComplete, b) => (.error .notComplete, b)
      | (.error _, b) =>
        match arrayDecode fuel b with
        | (.ok xs, b') => (.ok (.array xs), b')
        | (.error e, b') => (.error e, b')
    | some 37 =>
      match mapDecode fuel buf with
      | (.ok entries, b) => (.ok (.map entries), b)
      | (.error e, b) => (.error e, b)
    | some 126 =>
      match setDecode fuel buf with
      | (.ok xs, b) => (.ok (.set xs), b)
      | (.error e, b) => (.error e, b)
    | _ => (.error .invalidFrameType, buf)

/-- Embeds `RespArray::decode` (decode.rs lines 317–334): parse the count line,
length-check via `calc_total_length`, advance past the line, decode the
declared number of children.  (array.rs carries a second, divergent
`RespArray` decode impl with a signed count; the two cannot coexist in one
crate, and the decode.rs version is the one consistent with the rest of
decode.rs, whose `parse_length` is unsigned.  On every buffer evaluated in a
theorem below the two versions return identical results, since each such
buffer's count field is non-negative.) -/
def arrayDecode (fuel : Nat) (buf : Buf) : Except RespError (List RespFrame) × Buf :=
  match fuel with
  | 0 => (.error .fuelOut, buf)
  | fuel + 1 =>
    match parseLength buf [42] with
    | .error e => (.error e, buf)
    | .ok (e, len) =>
      match calcTotalLength fuel buf e len [42] with
      | .error err => (.error err, buf)
      | .ok totalLen =>
        if buf.length < totalLen then (.error .notComplete, buf)
        else decodeFrames fuel len (buf.drop (e + crlfLen)) []

/-- Embeds `RespSet::decode` (decode.rs lines 383–402): same shape as the array. -/
def setDecode (fuel : Nat) (buf : Buf) : Except RespError (List RespFrame) × Buf :=
  match fuel with
  | 0 => (.error .fuelOut, buf)
  | fuel + 1 =>
    match parseLength buf [126] with
    | .error e => (.error e, buf)
    | .ok (e, len) =>
      match calcTotalLength fuel buf e len [126] with
      | .error err => (.error err, buf)
      | .ok totalLen =>
        if buf.length < totalLen then (.error .notComplete, buf)
        else decodeFrames fuel len (buf.drop (e + crlfLen)) []

/-- The `for _ in 0..len { RespFrame::decode(buf)? }` loop of array/set
decode, accumulating the decoded children. -/
def decodeFrames (fuel : Nat) (k : Nat) (buf : Buf) (acc : List RespFrame) :
    Except RespError (List RespFrame) × Buf :=
  match fuel with
  | 0 => (.error .fuelOut, buf)
  | fuel + 1 =>
    match k with
    | 0 => (.ok acc.reverse, buf)
    | k + 1 =>
      match frameDecode fuel buf with
      | (.ok f, b) => decodeFrames fuel k b (f :: acc)
      | (.error e, b) => (.error e, b)

/-- Embeds `RespMap::decode` (decode.rs lines 355–374): parse the pair count,
length-check via `calc_total_length` (which probes only one pair), advance
past the line, then decode `len` key-value pairs into the map. -/
def mapDecode (fuel : Nat) (buf : Buf) :
    Except RespError (List (Buf × RespFrame)) × Buf :=
  match fuel with
  | 0 => (.error .fuelOut, buf)
  | fuel + 1 =>
    match parseLength buf [37] with
    | .error e => (.error e, buf)
    | .ok (e, len) =>
      match calcTotalLength fuel buf e len [37] with
      | .error err => (.error err, buf)
      | .ok totalLen =>
        if buf.length < totalLen then (.error .notComplete, buf)
        else decodePairs fuel len (buf.drop (e + crlfLen)) []

/-- The `for _ in 0..len { SimpleString::decode; RespFrame::decode; insert }`
loop of map decode. -/
def decodePairs (fuel : Nat) (k : Nat) (buf : Buf)
    (acc : List (Buf × RespFrame)) :
    Except RespError (List (Buf × RespFrame)) × Buf :=
  match fuel with
  | 0 => (.error .fuelOut, buf)
  | fuel + 1 =>
    match k with
    | 0 => (.ok acc, buf)
    | k + 1 =>
      match simpleStringDecode buf with
      | (.error e, b) => (.error e, b)
      | (.ok key, b) =>
        match frameDecode fuel b with
        | (.error e, b') => (.error e, b')
        | (.ok v, b') => decodePairs fuel k b' (btreeInsert key v acc)

end

/-! ## Entry points

The fuel supplied is far larger than any recursion depth reachable on the
given buffer (every nested probe/decode call moves at least three bytes in,
and each embedded call consumes one fuel unit, with a bounded number of calls
per byte). -/

/-- Ample fuel for a buffer. -/
def ampleFuel (buf : Buf) : Nat := 8 * buf.length + 16

/-- Embeds `RespFrame::decode` on a fresh buffer: the decoded result together with
the bytes the call leaves in the buffer. -/
def decodeBytes (buf : Buf) : Except RespError RespFrame × Buf :=
  frameDecode (ampleFuel buf) buf

/-- Embeds `RespFrame::expected_length` on a buffer — the Length Prober. -/
def probeLength (buf : Buf) : Except RespError Nat :=
  frameExpectedLength (ampleFuel buf) buf

/-- Embeds `RespMap::decode` on a fresh buffer. -/
def mapDecodeBytes (buf : Buf) : Except RespError (List (Buf × RespFrame)) × Buf :=
  mapDecode (ampleFuel buf) buf

/-! ## The encoder (encode.rs; the `RespArray` impl from array.rs) -/

/-- Decimal digits of a natural number, most significant first; the first
argument is a structural step counter that always dominates the digit count
(it starts at the number itself). -/
def natDecimalGo : Nat → Nat → Buf → Buf
  | 0, _, acc => acc
  | steps + 1, n, acc =>
    if n = 0 then acc else natDecimalGo steps (n / 10) ((48 + n % 10) :: acc)

/-- Decimal representation of a natural number (Rust `{}` formatting of an
unsigned value). -/
def natDecimal (n : Nat) : Buf :=
  if n = 0 then [48] else natDecimalGo n n []

/-- Rust `{}` formatting of an `i64`: a `-` sign for negatives, bare digits
otherwise. -/
def intDecimal (i : Int) : Buf :=
  if i < 0 then 45 :: natDecimal (-i).toNat else natDecimal i.toNat

/-- Embeds `format!(":{}{}\r\n", sign, self)` of the `i64` encoder: an explicit `+`
for non-negative values, the value's own `-` otherwise. -/
def i64Encode (i : Int) : Buf :=
  58 :: (if i < 0 then [] else [43]) ++ intDecimal i ++ crlf

mutual

/-- Embeds `RespEncode` dispatch over the frame variants (`enum_dispatch` in the
source).  `SimpleString`/`SimpleError` are `+`/`-` lines; `BulkString` is a
length line plus raw payload; `Null`, `NullArray`, `NullBulkString` are their
fixed tokens; `Array` is the array.rs encoder, which writes `*-1\r\n` for an
*empty* vector and a count line plus children otherwise; `Map` writes the
pair count then each key as a SimpleString followed by the encoded value;
`Set` writes the count then the members.  A `Double`'s payload text is
emitted behind `,` (the `{:+e}` number formatting itself is not re-modelled;
no claim inspects an encoded double). -/
def encodeFrame : RespFrame → Buf
  | .simpleString s => 43 :: s ++ crlf
  | .simpleError s => 45 :: s ++ crlf
  | .integer n => i64Encode n
  | .bulkString data => 36 :: natDecimal data.length ++ crlf ++ data ++ crlf
  | .array elems =>
    if elems.isEmpty then [42, 45, 49, 13, 10]
    else 42 :: natDecimal elems.length ++ crlf ++ encodeFrames elems
  | .null => [95, 13, 10]
  | .nullArray => [42, 45, 49, 13, 10]
  | .nullBulkString => [36, 45, 49, 13, 10]
  | .boolean b => [35, if b then 116 else 102, 13, 10]
  | .double text => 44 :: text ++ crlf
  | .map entries => 37 :: natDecimal entries.length ++ crlf ++ encodePairs entries
  | .set elems => 126 :: natDecimal elems.length ++ crlf ++ encodeFrames elems

/-- Concatenated encodings of a sequence of children. -/
def encodeFrames : List RespFrame → Buf
  | [] => []
  | f :: fs => encodeFrame f ++ encodeFrames fs

/-- Concatenated encodings of map entries: each key as a SimpleString line,
then the value. -/
def encodePairs : List (Buf × RespFrame) → Buf
  | [] => []
  | (k, v) :: ps => (43 :: k ++ crlf) ++ encodeFrame v ++ encodePairs ps

end

/-! ## `ApproximateFloat` (double.rs lines 15–28)

The `f64` payload is modelled by an exact rational.  The two operations under
scrutiny are elementary arithmetic (`(a - b).abs() < 1e-18` and
`(a * 1e18).round() as i64`); at the concrete values used below every IEEE-754
step of the Rust computation is exact (the inputs, `1e18`, the differences and
the products are all representable `f64` values, and `1e-18`'s rounding to the
nearest `f64` does not affect the comparison verdicts), so the rational model
agrees with the `f64` computation there. -/

/-- Embeds the `PartialEq for ApproximateFloat` impl: epsilon equality,
`(self.0 - other.0).abs() < 1e-18`. -/
def approxEq (a b : ℚ) : Prop := |a - b| < 1 / 10 ^ 18

instance (a b : ℚ) : Decidable (approxEq a b) := by unfold approxEq; infer_instance

/-- Rust `f64::round`: nearest integer, ties away from zero. -/
def roundAway (q : ℚ) : ℤ :=
  if 0 ≤ q then ⌊q + 1 / 2⌋ else -⌊-q + 1 / 2⌋

/-- Embeds the `Hash for ApproximateFloat` impl: the quantity actually fed to
the hasher, `(self.0 * 1e18).round() as i64` (two `ApproximateFloat`s hash
identically iff these quantized values coincide). -/
def quantHash (a : ℚ) : ℤ := roundAway (a * 10 ^ 18)

/-- Rounding ties-away-from-zero moves a value by at most one half. -/
theorem abs_roundAway_sub_le (q : ℚ) : |(roundAway q : ℚ) - q| ≤ 1 / 2 := by
  unfold roundAway
  split
  · have h1 : ((⌊q + 1 / 2⌋ : ℤ) : ℚ) ≤ q + 1 / 2 := Int.floor_le _
    have h2 : q + 1 / 2 - 1 < ((⌊q + 1 / 2⌋ : ℤ) : ℚ) := Int.sub_one_lt_floor _
    rw [abs_le]
    constructor <;> linarith
  · have h1 : ((⌊-q + 1 / 2⌋ : ℤ) : ℚ) ≤ -q + 1 / 2 := Int.floor_le _
    have h2 : -q + 1 / 2 - 1 < ((⌊-q + 1 / 2⌋ : ℤ) : ℚ) := Int.sub_one_lt_floor _
    rw [abs_le]
    push_cast
    constructor <;> linarith

/-! ## Concrete frames and buffers used by the claims -/

/-- The two-pair map frame, `{"a": 1, "b": 2}`. -/
def twoPairMap : RespFrame := .map [([97], .integer 1), ([98], .integer 2)]

/-- Wire bytes of `twoPairMap`: `%2\r\n+a\r\n:+1\r\n+b\r\n:+2\r\n`, 22 bytes. -/
def twoPairMapBytes : Buf := encodeFrame twoPairMap

/-- The bytes `%2\r\n+a\r\n:+1\r\n+b\r\n:+`: a strict prefix of
`twoPairMapBytes` that already contains the count line, the whole first pair
and the second key, but only two bytes of the second value. -/
def incompleteMapBytes : Buf :=
  [37, 50, 13, 10, 43, 97, 13, 10, 58, 43, 49, 13, 10, 43, 98, 13, 10, 58, 43]

/-- The bytes `*1\r\n$3\r\nab`: a strict prefix (10 of 13 bytes) of the
encoding of the array `[BulkString "abc"]`. -/
def arrayPrefixBytes : Buf := [42, 49, 13, 10, 36, 51, 13, 10, 97, 98]

/-- The bytes `*1\r\n$5\r\nab` (the input named by claim C3): an array header
whose declared child is a bulk string of span 11, of which only 6 bytes are
present. -/
def shortBulkChildBytes : Buf := [42, 49, 13, 10, 36, 53, 13, 10, 97, 98]

/-! ## Claim theorems -/

/-- C1: the round-trip claim fails on the code.  The Null frame is
well-formed and non-ambiguous and is not covered by the documented
empty-Array/NullArray merge, yet `decode(encode(Null))` is the fatal
`InvalidFrameType` error, not the Null frame: `RespFrame::decode` has no
dispatch arm for the `_` marker byte (even though decode.rs's own header
comment lists `null: "_\r\n"` among the frames to parse and a working
`RespNull::decode` impl exists in the same file). -/
theorem c1_null_roundtrip_is_fatal :
    encodeFrame .null = [95, 13, 10] ∧
    decodeBytes (encodeFrame .null) = (.error .invalidFrameType, [95, 13, 10]) :=
  ⟨rfl, rfl⟩

/-- C2: the claim that the Map length probe covers all `k` pairs fails on the
code.  For the complete, well-formed two-pair map `%2\r\n+a\r\n:+1\r\n+b\r\n:+2\r\n`
(22 bytes) the prober returns 13 — the count line plus the first pair only —
because the `%` arm of `calc_total_length` has no loop over the pair count. -/
theorem c2_map_probe_covers_only_first_pair :
    twoPairMapBytes.length = 22 ∧ probeLength twoPairMapBytes = .ok 13 :=
  ⟨rfl, rfl⟩

/-- C3: the totality claim fails on the code at the claim's own example.
Probing `*1\r\n$5\r\nab` panics with an out-of-bounds slice index instead of
returning the recoverable incomplete signal: the child probe reports the bulk
string's full expected span (11) and `calc_total_length` then evaluates
`&data[11..]` on the 6 remaining bytes. -/
theorem c3_probe_panics_reading_past_end :
    probeLength shortBulkChildBytes = .error .panicOutOfBounds := rfl

/-- C4: the no-partial-consumption claim fails on the code.  Decoding the
incomplete two-pair map `%2\r\n+a\r\n:+1\r\n+b\r\n:+` (19 bytes) returns the
recoverable `NotComplete` — but leaves only the two bytes `:+` in the buffer,
having consumed 17 bytes: `calc_total_length` under-reports the map's span
(one pair instead of two), so the readiness check passes and the pair loop
consumes the count line, the first pair and the second key before hitting the
truncated second value. -/
theorem c4_incomplete_map_decode_consumes_bytes :
    decodeBytes incompleteMapBytes = (.error .notComplete, [58, 43]) ∧
    incompleteMapBytes.length = 19 :=
  ⟨rfl, rfl⟩

/-- C5: the exactness claim fails on the code.  On the complete two-pair map
buffer, decode succeeds and consumes all 22 bytes (the returned buffer is
empty), while `expected_length` on the original buffer returns 13. -/
theorem c5_map_consumption_exceeds_probe :
    decodeBytes twoPairMapBytes = (.ok twoPairMap, []) ∧
    probeLength twoPairMapBytes = .ok 13 ∧
    twoPairMapBytes.length = 22 :=
  ⟨rfl, rfl, rfl⟩

/-- C6: the incomplete-safety claim fails on the code.  `*1\r\n$3\r\nab` is a
strict 10-byte prefix of the 13-byte encoding of the well-formed array
`[BulkString "abc"]`, yet decoding it panics with an out-of-bounds slice
index (inside `calc_total_length`, as in C3) — neither Incomplete nor even a
clean fatal error. -/
theorem c6_strict_prefix_decode_panics :
    encodeFrame (.array [.bulkString [97, 98, 99]]) = arrayPrefixBytes ++ [99, 13, 10] ∧
    decodeBytes arrayPrefixBytes = (.error .panicOutOfBounds, arrayPrefixBytes) :=
  ⟨rfl, rfl⟩

/-- C7: the claim that the dispatch entry point handles the standalone Null
frame fails on the code.  On `_\r\n`, `RespFrame::decode` returns the fatal
`InvalidFrameType` (no `_` arm) and `RespFrame::expected_length` returns
`NotComplete` (its catch-all), not 3 — even though the per-type
`RespNull::decode` / `expected_length` impls exist in decode.rs and behave
exactly as the claim describes, as the last two conjuncts show. -/
theorem c7_null_not_reachable_from_dispatch :
    decodeBytes [95, 13, 10] = (.error .invalidFrameType, [95, 13, 10]) ∧
    probeLength [95, 13, 10] = .error .notComplete ∧
    nullDecode [95, 13, 10] = (.ok (), []) ∧
    nullExpectedLength [95, 13, 10] = .ok 3 :=
  ⟨rfl, rfl, rfl, rfl⟩

/-- C8: the null-bulk-string-first claim fails on the code.  Decoding
`$-1\r\n` (the encoding of NullBulkString, first conjunct) is the fatal
integer-parse error, not the NullBulkString frame: despite its "try null bulk
string first" comment, the `$` arm of `RespFrame::decode` calls
`BulkString::decode` in both the first attempt and the fallthrough, and
`"-1"` fails to parse as the unsigned payload length both times. -/
theorem c8_null_bulk_string_decode_is_fatal :
    encodeFrame .nullBulkString = [36, 45, 49, 13, 10] ∧
    decodeBytes [36, 45, 49, 13, 10] = (.error .parseIntError, [36, 45, 49, 13, 10]) :=
  ⟨rfl, rfl⟩

/-- C9: the fatal-classification claim fails on the code.  Decoding `*2\r\n`
followed by eight garbage bytes `x` — ample to make the mismatch determinable
— returns the recoverable `NotComplete`, not a fatal error: the garbage is
reached through `RespFrame::expected_length`, whose catch-all arm maps an
unknown leading byte to `NotComplete` (unlike the decode dispatch, whose
catch-all is the fatal `InvalidFrameType`), so a caller accumulating bytes
would retry forever. -/
theorem c9_garbage_after_array_header_stays_recoverable :
    decodeBytes ([42, 50, 13, 10] ++ List.replicate 8 120)
      = (.error .notComplete, [42, 50, 13, 10] ++ List.replicate 8 120) := rfl

/-- C10 (counterexample): the hash/equality consistency claim is false.  The
values 0 and 2⁻⁶⁰ differ by less than 1e-18, so they are equal under the
epsilon rule, yet their quantized hashes are the distinct buckets 0 and 1
(2⁻⁶⁰ · 10¹⁸ ≈ 0.867 rounds to 1).  Every IEEE-754 step of the corresponding
`f64` computation at these inputs is exact, so the rational model coincides
with the Rust computation here. -/
theorem c10_epsilon_equal_values_hash_apart :
    approxEq 0 (1 / 2 ^ 60) ∧ quantHash 0 ≠ quantHash (1 / 2 ^ 60) := by
  constructor
  · unfold approxEq
    rw [zero_sub, abs_neg, abs_of_pos (by norm_num)]
    norm_num
  · have h0 : quantHash 0 = 0 := by
      unfold quantHash roundAway
      norm_num
    have h1 : quantHash (1 / 2 ^ 60) = 1 := by
      unfold quantHash roundAway
      rw [if_pos (by norm_num), Int.floor_eq_iff]
      constructor <;> norm_num
    rw [h0, h1]
    decide

/-- C10 (amended): epsilon-equal `ApproximateFloat` values need not hash
identically, but their quantized hashes lie at most one bucket apart:
`|a - b| < 1e-18` implies `|round(a·1e18) - round(b·1e18)| ≤ 1`.  (Identical
payloads hash identically since the hash is a function of the value.) -/
theorem c10_epsilon_equal_hashes_within_one (a b : ℚ) (h : approxEq a b) :
    |quantHash a - quantHash b| ≤ 1 := by
  have ha := abs_roundAway_sub_le (a * 10 ^ 18)
  have hb := abs_roundAway_sub_le (b * 10 ^ 18)
  rw [abs_le] at ha hb
  obtain ⟨ha1, ha2⟩ := ha
  obtain ⟨hb1, hb2⟩ := hb
  have e18pos : (0 : ℚ) < 10 ^ 18 := by norm_num
  have h' : |a - b| < 1 / 10 ^ 18 := h
  have hab : |(a - b) * 10 ^ 18| < 1 := by
    rw [abs_mul, abs_of_pos e18pos]
    calc |a - b| * 10 ^ 18 < 1 / 10 ^ 18 * 10 ^ 18 := mul_lt_mul_of_pos_right h' e18pos
      _ = 1 := by norm_num
  rw [abs_lt, sub_mul] at hab
  obtain ⟨hab1, hab2⟩ := hab
  have key : |((quantHash a - quantHash b : ℤ) : ℚ)| < 2 := by
    rw [abs_lt]
    push_cast
    unfold quantHash
    set ra := ((roundAway (a * 10 ^ 18) : ℤ) : ℚ) with hra
    set rb := ((roundAway (b * 10 ^ 18) : ℤ) : ℚ) with hrb
    set x := a * 10 ^ 18 with hx
    set y := b * 10 ^ 18 with hy
    constructor <;> linarith
  rw [← Int.cast_abs] at key
  have key2 : |quantHash a - quantHash b| < 2 := by exact_mod_cast key
  omega

/-- Witness for the amended C10 theorem at the concrete pair (0, 2⁻⁶⁰). -/
theorem c10_epsilon_equal_hashes_within_one_witness :
    approxEq 0 (1 / 2 ^ 60) ∧ |quantHash 0 - quantHash (1 / 2 ^ 60)| ≤ 1 :=
  ⟨by
    unfold approxEq
    rw [zero_sub, abs_neg, abs_of_pos (by norm_num)]
    norm_num,
   c10_epsilon_equal_hashes_within_one 0 (1 / 2 ^ 60) (by
    unfold approxEq
    rw [zero_sub, abs_neg, abs_of_pos (by norm_num)]
    norm_num)⟩

end SimpleRedis
